import Mathlib

/-!
Shallow embedding of the trend-detection and trust/bot-scoring core of the
`veracity` repository (files `app/services/processing/trend_detector.py` and
`app/services/scoring/trust_scorer.py`).

Conventions of the embedding:
* Python floats are modelled as exact rationals `ℚ`; `datetime` values are
  modelled as whole seconds since the epoch (`ℤ`), matching the code's use of
  `total_seconds()` divided by 3600 for hour spans.
* `numpy.std` (a square root) is abstracted as an explicit `sqrtFn : ℚ → ℚ`
  parameter; every theorem that needs a property of the square root states it
  as a hypothesis (for instance `sqrtFn 0 = 0`).
* Python `try/except` blocks are modelled by explicit boolean exception flags
  (an exception oracle): the flag chooses the `except` branch, exactly as an
  exception escaping the `try` body would.
* Computations delegated to external libraries (sklearn TF-IDF/DBSCAN
  clustering, networkx community detection) are abstracted as function
  parameters of the pipeline; theorems quantify over them.
* `round(x, n)` (Python round-half-to-even) is modelled exactly on `ℚ` by
  `pyRound`.
-/

namespace Veracity

set_option maxRecDepth 8000

/-- Arithmetic mean of a list of rationals (`numpy.mean`); the empty list
yields `0/0 = 0` in `ℚ`, callers guard non-emptiness as the code does. -/
def mean (xs : List ℚ) : ℚ := xs.sum / (xs.length : ℚ)

/-- Population variance (`numpy.std` squared, `ddof = 0`). -/
def popVariance (xs : List ℚ) : ℚ :=
  ((xs.map (fun x => (x - mean xs) ^ 2)).sum) / (xs.length : ℚ)

/-- Round a rational to the nearest integer, ties to the even integer
(the rounding mode of Python `round`). -/
def roundHalfToEven (y : ℚ) : ℤ :=
  if y - (⌊y⌋ : ℚ) < 1/2 then ⌊y⌋
  else if (1/2 : ℚ) < y - (⌊y⌋ : ℚ) then ⌊y⌋ + 1
  else if ⌊y⌋ % 2 = 0 then ⌊y⌋ else ⌊y⌋ + 1

/-- Python `round(x, d)` on exact rationals. -/
def pyRound (d : ℕ) (x : ℚ) : ℚ :=
  (roundHalfToEven (x * 10 ^ d) : ℚ) / 10 ^ d

/-- Largest element of a list of integers (Python `max`, guarded non-empty). -/
def listMax : List ℤ → ℤ
  | [] => 0
  | x :: xs => xs.foldl max x

/-- Smallest element of a list of integers (Python `min`, guarded non-empty). -/
def listMin : List ℤ → ℤ
  | [] => 0
  | x :: xs => xs.foldl min x

/-- A social-media post as consumed by `TrendDetector` (the fields of the
post dict that the detector reads). `postedAt` is seconds since the epoch. -/
structure Post where
  postedAt : ℤ
  platform : String
  hashtags : List String
  keywords : List String
  authorUsername : Option String
  deriving DecidableEq

/-- Start of the time window containing second `t`, for a window of
`windowMinutes` minutes: `posted_at.replace(minute=(minute // w) * w,
second=0, microsecond=0)` from `TrendDetector._group_posts_by_time`. -/
def windowKey (windowMinutes : ℤ) (t : ℤ) : ℤ :=
  let hourStart := t - t.emod 3600
  let minuteOfHour := (t.emod 3600).ediv 60
  hourStart + (minuteOfHour.ediv windowMinutes) * windowMinutes * 60

/-- Append post `p` to the group keyed `key` of an association list,
creating the group if absent (`defaultdict(list)` update). -/
def groupInsert (key : ℤ) (p : Post) : List (ℤ × List Post) → List (ℤ × List Post)
  | [] => [(key, [p])]
  | (k, ps) :: rest =>
      if k = key then (k, ps ++ [p]) :: rest else (k, ps) :: groupInsert key p rest

/-- Embeds `TrendDetector._group_posts_by_time`: bucket posts into time windows,
keyed by window start, in first-seen key order. -/
def groupPostsByTime (windowMinutes : ℤ) (posts : List Post) : List (ℤ × List Post) :=
  posts.foldl (fun acc p => groupInsert (windowKey windowMinutes p.postedAt) p acc) []

/-- The time windows of `_analyze_velocity`, in sorted key order
(`sorted(temporal_groups.keys())`). -/
def sortedWindowsOf (windowMinutes : ℤ) (posts : List Post) : List (ℤ × List Post) :=
  (groupPostsByTime windowMinutes posts).insertionSort (fun a b => a.1 ≤ b.1)

/-- Per-window post counts of `_analyze_velocity` (`velocities`), in sorted
window order. -/
def velocitiesOf (windowMinutes : ℤ) (posts : List Post) : List ℚ :=
  (sortedWindowsOf windowMinutes posts).map (fun kv => (kv.2.length : ℚ))

/-- Embeds `TrendDetector._analyze_velocity`, restricted to the data each emitted
`velocity_spike` trend carries that the claims mention: the window key and
its `spike_ratio = velocity / mean_velocity`.  `sqrtFn` abstracts
`numpy.std`; `velocityThreshold` is the detector's threshold (default 5). -/
def analyzeVelocity (sqrtFn : ℚ → ℚ) (velocityThreshold : ℚ) (windowMinutes : ℤ)
    (posts : List Post) : List (ℤ × ℚ) :=
  let sortedWindows := sortedWindowsOf windowMinutes posts
  if sortedWindows.length < 3 then []
  else
    let vels := velocitiesOf windowMinutes posts
    let meanVelocity := mean vels
    let stdVelocity := sqrtFn (popVariance vels)
    let spikeThreshold := meanVelocity + 2 * stdVelocity
    (sortedWindows.filter (fun kv =>
        spikeThreshold < (kv.2.length : ℚ) ∧ velocityThreshold ≤ (kv.2.length : ℚ))).map
      (fun kv => (kv.1, (kv.2.length : ℚ) / meanVelocity))

/-- Hours between the earliest and the latest timestamps of a cluster's
member posts (the raw, unclamped span used by `_calculate_time_span`). -/
def rawTimeSpanHours (posts : List Post) : ℚ :=
  ((listMax (posts.map Post.postedAt) - listMin (posts.map Post.postedAt) : ℤ) : ℚ) / 3600

/-- Embeds `TrendDetector._calculate_time_span`: span of the posts in hours, `1.0`
for fewer than two timestamps, clamped below at `0.1` hours otherwise. -/
def calculateTimeSpan (posts : List Post) : ℚ :=
  if (posts.map Post.postedAt).length < 2 then 1
  else max (rawTimeSpanHours posts) (1/10)

/-- The `velocity` field of the cluster dict built by
`TrendDetector._analyze_cluster`:
`len(cluster_posts) / max(time_span, 1) if time_span > 0 else 0`. -/
def clusterVelocity (posts : List Post) : ℚ :=
  let timeSpan := calculateTimeSpan posts
  if 0 < timeSpan then (posts.length : ℚ) / max timeSpan 1 else 0

/-- Modelled from the spec sentence `velocity = member_count /
max(time_span_hours, 0.1)`; the spec-side formula of claim C3, kept separate
from `clusterVelocity` (the code-side definition) for comparison. -/
def clusterVelocitySpec (posts : List Post) : ℚ :=
  (posts.length : ℚ) / max (rawTimeSpanHours posts) (1/10)

/-- Sort a list of rationals ascending (Python `list.sort`). -/
def sortRat (l : List ℚ) : List ℚ := l.insertionSort (fun a b => a ≤ b)

/-- Consecutive differences of a list (`timestamps[i] - timestamps[i-1]`). -/
def consecutiveGaps : List ℚ → List ℚ
  | [] => []
  | [_] => []
  | x :: y :: rest => (y - x) :: consecutiveGaps (y :: rest)

/-- The timestamps of a community's posts, as rationals (seconds). -/
def commTimestamps (posts : List Post) : List ℚ :=
  posts.map (fun p => (p.postedAt : ℚ))

/-- The sorted consecutive time gaps (`time_diffs`) of
`TrendDetector._calculate_coordination_score`. -/
def commGaps (posts : List Post) : List ℚ :=
  consecutiveGaps (sortRat (commTimestamps posts))

/-- Embeds `TrendDetector._calculate_coordination_score`.  With fewer than two
timestamps, or at most one gap, the score is `0`.  Otherwise
`cv = std/mean` when the mean gap is positive (else `cv = inf`, and
`min(inf, 1) = 1` makes the score `0`, inlined here as the `else` branch),
and the score is `max(0, 1 - min(cv, 1))`.  `sqrtFn` abstracts `numpy.std`
applied to the population variance of the gaps. -/
def calculateCoordinationScore (sqrtFn : ℚ → ℚ) (posts : List Post) : ℚ :=
  if (commTimestamps posts).length < 2 then 0
  else
    let diffs := commGaps posts
    if 1 < diffs.length then
      let meanDiff := mean diffs
      let stdDiff := sqrtFn (popVariance diffs)
      if 0 < meanDiff then max 0 (1 - min (stdDiff / meanDiff) 1) else 0
    else 0

/-- The `type` tag of a trend candidate dict. -/
inductive TrendType
  | contentCluster
  | keywordTrend
  | hashtagTrend
  | velocitySpike
  | coordinatedNetwork
  deriving DecidableEq

/-- A trend-candidate dict as read by `_calculate_trend_score` and
`_filter_and_rank_trends`: each field holds the value `trend.get(key,
default)` would return (`platformCount` is `len(trend.get("platforms", ...))`,
`score` is the entry written by `_combine_trend_signals`, initially absent
and read back with default `0`). -/
structure TrendCand where
  ttype : TrendType
  mentionCount : ℕ
  velocity : ℚ
  acceleration : ℚ
  platformCount : ℕ
  coordScore : ℚ
  score : ℚ
  deriving DecidableEq

/-- Embeds `TrendDetector._calculate_trend_score`: additive capped factors, a
coordination penalty applied before the type bonuses (the code multiplies
by 0.5 at line 529 and adds the bonuses at lines 531-535), and a final cap
at 100. -/
def calculateTrendScore (t : TrendCand) : ℚ :=
  let base1 := min ((t.mentionCount : ℚ) / 100) 1 * 30
  let base2 := base1 + min (t.velocity / 50) 1 * 25
  let base3 := base2 + (if 0 < t.acceleration then min (t.acceleration / 20) 1 * 20 else 0)
  let base4 := base3 + min ((t.platformCount : ℚ) / 4) 1 * 15
  let base5 := if 8/10 < t.coordScore then base4 * (1/2) else base4
  let base6 :=
    if t.ttype = TrendType.contentCluster then base5 + 10
    else if t.ttype = TrendType.velocitySpike then base5 + 15
    else base5
  min base6 100

/-- Embeds `TrendDetector._combine_trend_signals`: concatenate the four detector
outputs and write a `score` entry into each candidate. -/
def combineTrendSignals (contentClusters keywordTrends velocityTrends networkTrends :
    List TrendCand) : List TrendCand :=
  (contentClusters ++ keywordTrends ++ velocityTrends ++ networkTrends).map
    (fun t => { t with score := calculateTrendScore t })

/-- The descending-score order used by `_filter_and_rank_trends`
(`sort(key=lambda x: x.get("score", 0), reverse=True)`). -/
def trendGE (a b : TrendCand) : Prop := b.score ≤ a.score

instance : DecidableRel trendGE := fun a b => inferInstanceAs (Decidable (b.score ≤ a.score))

instance : IsTotal TrendCand trendGE := ⟨fun a b => le_total b.score a.score⟩

instance : IsTrans TrendCand trendGE := ⟨fun _ _ _ h1 h2 => le_trans h2 h1⟩

/-- Embeds `TrendDetector._filter_and_rank_trends`: drop candidates scoring below
20, sort descending by score, return the top 50. -/
def filterAndRankTrends (trends : List TrendCand) : List TrendCand :=
  ((trends.filter (fun t => 20 ≤ t.score)).insertionSort trendGE).take 50

/-- Embeds `TrendDetector.detect_trends`.  The content-clustering, keyword,
velocity-spike and network passes (steps 2-5) are abstracted as the four
function parameters (they delegate to sklearn/networkx or are independent of
the claims); `excTop` models an exception escaping the `try` body, which the
`except` handler converts to an empty list. -/
def detect_trends (excTop : Bool)
    (clusterContent analyzeKeywordTrends analyzeVelocityTrends analyzeNetworkPatterns :
      List Post → List TrendCand)
    (minMentions : ℕ) (posts : List Post) : List TrendCand :=
  if excTop then []
  else if posts.length < minMentions then []
  else
    filterAndRankTrends
      (combineTrendSignals (clusterContent posts) (analyzeKeywordTrends posts)
        (analyzeVelocityTrends posts) (analyzeNetworkPatterns posts))

/-- The six named trust signals of `TrustScorer`. -/
inductive SigName
  | sourceCredibility
  | velocityPattern
  | crossPlatformCorrelation
  | engagementAuthenticity
  | temporalConsistency
  | contentQuality
  deriving DecidableEq

/-- Embeds `TrustScorer.signal_weights`. -/
def signalWeights : SigName → ℚ
  | SigName.sourceCredibility => 25/100
  | SigName.velocityPattern => 20/100
  | SigName.crossPlatformCorrelation => 20/100
  | SigName.engagementAuthenticity => 15/100
  | SigName.temporalConsistency => 10/100
  | SigName.contentQuality => 10/100

/-- The order in which `calculate_score` computes and stores the signals. -/
def sigOrder : List SigName :=
  [SigName.sourceCredibility, SigName.velocityPattern, SigName.crossPlatformCorrelation,
   SigName.engagementAuthenticity, SigName.temporalConsistency, SigName.contentQuality]

/-- A story as read by `TrustScorer` (the `StoryResponse` fields the scorer
touches).  `createdAt` is seconds since the epoch, UTC. -/
structure Story where
  id : ℕ
  velocity : Option ℚ
  createdAt : ℚ
  description : Option String
  deriving DecidableEq

/-- The velocity-to-signal piecewise map inside
`TrustScorer._analyze_velocity_pattern`. -/
def velocityPatternCore (v : ℚ) : ℚ :=
  if v < 1/10 then 8/10
  else if v < 1 then 9/10
  else if v < 10 then 6/10
  else 3/10

/-- Embeds `TrustScorer._analyze_velocity_pattern`: `None` velocity gives a `None`
signal, otherwise the piecewise map; `exc` models an exception inside the
`try` body, caught and converted to `None`. -/
def analyzeVelocityPattern (exc : Bool) (velocity : Option ℚ) : Option ℚ :=
  if exc then none else velocity.map velocityPatternCore

/-- The age-to-signal piecewise map inside
`TrustScorer._analyze_temporal_consistency` (`hours_since` from `now`). -/
def temporalConsistencyCore (now createdAt : ℚ) : ℚ :=
  let hoursSince := (now - createdAt) / 3600
  if hoursSince < 1 then 6/10
  else if hoursSince < 24 then 8/10
  else 9/10

/-- The length-to-signal piecewise map inside
`TrustScorer._analyze_content_quality` (`len(story.description or "")`). -/
def contentQualityCore (description : Option String) : ℚ :=
  let contentLength := (description.getD "").length
  if contentLength < 50 then 4/10
  else if contentLength < 200 then 6/10
  else if contentLength < 1000 then 8/10
  else 9/10

/-- One signal computation of `TrustScorer.calculate_score` (lines 69-82):
each signal helper catches its own exceptions and returns `None` for them,
modelled by the per-signal `oracle` flag; `source_credibility`,
`cross_platform_correlation` and `engagement_authenticity` are the
placeholder constants of the source. -/
def computeSignal (oracle : SigName → Bool) (now : ℚ) (story : Story) (s : SigName) :
    Option ℚ :=
  if oracle s then none
  else
    match s with
    | SigName.sourceCredibility => some (7/10)
    | SigName.velocityPattern => story.velocity.map velocityPatternCore
    | SigName.crossPlatformCorrelation => some (75/100)
    | SigName.engagementAuthenticity => some (8/10)
    | SigName.temporalConsistency => some (temporalConsistencyCore now story.createdAt)
    | SigName.contentQuality => some (contentQualityCore story.description)

/-- An explanation line of the result.  String formatting is abstracted:
`signalReport s pct` stands for the f-string of
`_generate_signal_explanation` with `value_percentage = pct`, and
`errorCalculating` stands for the literal string
"Error calculating trust score" of the `except` handler. -/
inductive Expl
  | signalReport (name : SigName) (valuePct : ℚ)
  | errorCalculating
  deriving DecidableEq

/-- One entry of the result's `signals` dict: value, weight, contribution. -/
structure SignalEntry where
  name : SigName
  value : Option ℚ
  weight : ℚ
  contribution : ℚ
  deriving DecidableEq

/-- The dict returned by `TrustScorer.calculate_score`. -/
structure TrustScoreResult where
  score : ℚ
  scorePercentage : ℚ
  signals : List SignalEntry
  explanation : List Expl
  calculatedAt : ℚ
  confidence : ℚ
  deriving DecidableEq

/-- Embeds `TrustScorer._calculate_confidence`: fraction of non-null signals,
capped at 1. -/
def calculateConfidence (signals : List (SigName × Option ℚ)) : ℚ :=
  min 1 (((signals.filter (fun sv => sv.2.isSome)).length : ℚ) / (signals.length : ℚ))

/-- The `try` body of `TrustScorer.calculate_score`: compute the six
signals, accumulate `value * weight` and the weight of every non-null
signal, normalize, clamp to `[0, 1]`, and assemble the result dict. -/
def calculateScoreBody (oracle : SigName → Bool) (now : ℚ) (story : Story) :
    TrustScoreResult :=
  let signals := sigOrder.map (fun s => (s, computeSignal oracle now story s))
  let compositeScore :=
    (signals.filterMap (fun sv => sv.2.map (fun v => v * signalWeights sv.1))).sum
  let totalWeight :=
    (signals.filterMap (fun sv => sv.2.map (fun _ => signalWeights sv.1))).sum
  let explanations :=
    signals.filterMap (fun sv =>
      sv.2.map (fun v => Expl.signalReport sv.1 (pyRound 1 (v * 100))))
  let finalScore := if 0 < totalWeight then compositeScore / totalWeight else 1/2
  let clamped := max 0 (min 1 finalScore)
  { score := clamped
    scorePercentage := pyRound 1 (clamped * 100)
    signals := signals.map (fun sv =>
      { name := sv.1
        value := sv.2
        weight := signalWeights sv.1
        contribution := match sv.2 with | some v => v * signalWeights sv.1 | none => 0 })
    explanation := explanations
    calculatedAt := now
    confidence := calculateConfidence signals }

/-- Embeds `TrustScorer.calculate_score` (the `ScoreTrust` entry point): the `try`
body, with the `except` handler returning the degraded default result;
`excTop` models an exception escaping the body into the handler. -/
def calculate_score (oracle : SigName → Bool) (excTop : Bool) (now : ℚ) (story : Story) :
    TrustScoreResult :=
  if excTop then
    { score := 1/2
      scorePercentage := 50
      signals := []
      explanation := [Expl.errorCalculating]
      calculatedAt := now
      confidence := 0 }
  else calculateScoreBody oracle now story

/-- A raw post as read by `TrustScorer.detect_bots`: each field holds what
the corresponding dict access returns (`author` is `post.get("author",
"unknown")` when absent, `createdAt` is present iff `"created_at" in post`,
`likes`/`retweets` default to 0). -/
structure BotPost where
  author : Option String
  createdAt : Option ℚ
  likes : ℚ
  retweets : ℚ
  content : String
  deriving DecidableEq

/-- The per-account statistics accumulated by `detect_bots`. -/
structure AccountStats where
  postCount : ℕ
  postTimes : List ℚ
  engagementRatios : List ℚ
  deriving DecidableEq

/-- The `defaultdict` initial value of an account's statistics. -/
def emptyStats : AccountStats :=
  { postCount := 0, postTimes := [], engagementRatios := [] }

/-- One post's update of its author's statistics (lines 325-339): count the
post, record `created_at` when present, record `likes / retweets` when
`retweets > 0`. -/
def updateStats (p : BotPost) (s : AccountStats) : AccountStats :=
  { postCount := s.postCount + 1
    postTimes := s.postTimes ++ (match p.createdAt with | some t => [t] | none => [])
    engagementRatios :=
      s.engagementRatios ++ (if 0 < p.retweets then [p.likes / p.retweets] else []) }

/-- Update the statistics of account `a` in the association list, keeping
first-seen key order (Python dict insertion order). -/
def statsInsert (a : String) (p : BotPost) :
    List (String × AccountStats) → List (String × AccountStats)
  | [] => [(a, updateStats p emptyStats)]
  | (k, s) :: rest =>
      if k = a then (k, updateStats p s) :: rest else (k, s) :: statsInsert a p rest

/-- The `account_stats` mapping of `detect_bots`, in first-seen author
order. -/
def collectAccountStats (posts : List BotPost) : List (String × AccountStats) :=
  posts.foldl (fun acc p => statsInsert (p.author.getD "unknown") p acc) []

/-- The suspicion score an account accumulates (lines 345-361): `+0.3` for
more than 10 posts, `+0.4` for a mean engagement ratio below 0.1 or above
10 (only when ratios were recorded), `+0.2` for more than 5 recorded
timestamps. -/
def suspicionScore (s : AccountStats) : ℚ :=
  (if 10 < s.postCount then 3/10 else 0)
    + (if s.engagementRatios ≠ [] ∧
          (mean s.engagementRatios < 1/10 ∨ 10 < mean s.engagementRatios)
       then 4/10 else 0)
    + (if 5 < s.postTimes.length then 2/10 else 0)

/-- One entry of the `suspicious_accounts` list. -/
structure SuspiciousAccount where
  account : String
  suspicionScore : ℚ
  postCount : ℕ
  deriving DecidableEq

/-- The accounts whose suspicion score exceeds 0.5, in discovery order
(lines 342-370). -/
def suspiciousAccountsOf (stats : List (String × AccountStats)) : List SuspiciousAccount :=
  (stats.filter (fun ks => 1/2 < suspicionScore ks.2)).map
    (fun ks => { account := ks.1, suspicionScore := suspicionScore ks.2,
                 postCount := ks.2.postCount })

/-- Number of distinct first-50-character content keys among the posts
(the `unique_content` set of line 378). -/
def uniqueContentCount (posts : List BotPost) : ℕ :=
  ((posts.map (fun p => p.content.take 50)).dedup).length

/-- The `coordinated_indicators` counter: one for a coordinated campaign
(more than 5 suspicious accounts), one for high content similarity
(distinct truncated contents below 70% of the posts). -/
def coordinatedIndicatorsOf (posts : List BotPost) (suspiciousCount : ℕ) : ℕ :=
  (if 5 < suspiciousCount then 1 else 0)
    + (if (uniqueContentCount posts : ℚ) < (posts.length : ℚ) * (7/10) then 1 else 0)

/-- The dict returned by `TrustScorer.detect_bots` (the fields the claims
mention; the free-text `analysis` string is omitted).  The empty-batch
result leaves `totalAccountsAnalyzed`/`coordinatedIndicators` at 0, as the
source omits those keys there. -/
structure BotDetectionResult where
  botProbability : ℚ
  coordinatedCampaign : Bool
  suspiciousAccounts : List SuspiciousAccount
  totalAccountsAnalyzed : ℕ
  coordinatedIndicators : ℕ
  deriving DecidableEq

/-- Embeds `TrustScorer.detect_bots` (the `DetectBots` entry point): collect
account statistics, flag suspicious accounts, count coordination
indicators, and compute `bot_probability = min(1, suspicious /
max(accounts, 1))`, boosted by `0.3` per indicator and re-clamped, then
rounded to three decimals; the suspicious list is capped at 10 entries. -/
def detect_bots (posts : List BotPost) : BotDetectionResult :=
  if posts.isEmpty then
    { botProbability := 0, coordinatedCampaign := false, suspiciousAccounts := [],
      totalAccountsAnalyzed := 0, coordinatedIndicators := 0 }
  else
    let stats := collectAccountStats posts
    let suspicious := suspiciousAccountsOf stats
    let indicators := coordinatedIndicatorsOf posts suspicious.length
    let prob0 := min 1 ((suspicious.length : ℚ) / max (stats.length : ℚ) 1)
    let prob1 :=
      if 0 < indicators then min 1 (prob0 + 3/10 * (indicators : ℚ)) else prob0
    { botProbability := pyRound 3 prob1
      coordinatedCampaign := decide (5 < suspicious.length)
      suspiciousAccounts := suspicious.take 10
      totalAccountsAnalyzed := stats.length
      coordinatedIndicators := indicators }

/-- Modelled from the claim C6 sentence: `bot_probability =
suspicious_count / max(total_accounts, 1)`, increased by `0.3` per
coordination indicator and clamped to `[0, 1]` — the spec-side probability,
kept separate from `detect_bots` for comparison. -/
def botProbabilityClaim (posts : List BotPost) : ℚ :=
  let stats := collectAccountStats posts
  let suspicious := suspiciousAccountsOf stats
  let indicators := coordinatedIndicatorsOf posts suspicious.length
  min 1 (max 0 ((suspicious.length : ℚ) / max (stats.length : ℚ) 1
    + 3/10 * (indicators : ℚ)))

/-! Concrete inputs used by witnesses and counterexamples. -/

/-- A post with the given timestamp and neutral remaining fields. -/
def mkPost (t : ℤ) : Post :=
  { postedAt := t, platform := "x", hashtags := [], keywords := [], authorUsername := none }

/-- Ten posts spanning half an hour (1800 seconds). -/
def c3posts : List Post :=
  [mkPost 0, mkPost 200, mkPost 400, mkPost 600, mkPost 800,
   mkPost 1000, mkPost 1200, mkPost 1400, mkPost 1600, mkPost 1800]

/-- Ten posts at perfectly even one-minute intervals. -/
def c5posts : List Post :=
  [mkPost 0, mkPost 60, mkPost 120, mkPost 180, mkPost 240,
   mkPost 300, mkPost 360, mkPost 420, mkPost 480, mkPost 540]

/-- Three posts falling in three distinct hour windows. -/
def c10posts : List Post := [mkPost 0, mkPost 3600, mkPost 7200]

/-- A raw post for bot detection. -/
def mkBotPost (a : String) (t likes retweets : ℚ) (content : String) : BotPost :=
  { author := some a, createdAt := some t, likes := likes, retweets := retweets,
    content := content }

/-- Thirteen posts: author "a" posts eleven times with engagement ratio 0,
authors "b" and "c" once each with ratio 1; all contents distinct.  Exactly
one of the three accounts is suspicious and no coordination indicator
fires, so the pre-rounding bot probability is 1/3. -/
def c6posts : List BotPost :=
  [mkBotPost "a" 1 0 1 "a01", mkBotPost "a" 2 0 1 "a02", mkBotPost "a" 3 0 1 "a03",
   mkBotPost "a" 4 0 1 "a04", mkBotPost "a" 5 0 1 "a05", mkBotPost "a" 6 0 1 "a06",
   mkBotPost "a" 7 0 1 "a07", mkBotPost "a" 8 0 1 "a08", mkBotPost "a" 9 0 1 "a09",
   mkBotPost "a" 10 0 1 "a10", mkBotPost "a" 11 0 1 "a11",
   mkBotPost "b" 1 1 1 "b01", mkBotPost "c" 1 1 1 "c01"]

/-- A story with a known velocity of zero. -/
def exampleStory : Story :=
  { id := 1, velocity := some 0, createdAt := 0, description := none }

/-! Theorems settling the claims. -/

/-- C2: for every story (and whatever the per-signal exception oracle does),
if an exception escapes the scoring body then `calculate_score` still
returns — it does not re-raise — and the result is exactly the degraded
default: score 0.5, score percentage 50.0, confidence 0.0, empty signal
dict, and the single generic error explanation. -/
theorem C2_score_trust_degraded_on_exception (oracle : SigName → Bool) (now : ℚ)
    (story : Story) :
    calculate_score oracle true now story =
      { score := 1/2
        scorePercentage := 50
        signals := []
        explanation := [Expl.errorCalculating]
        calculatedAt := now
        confidence := 0 } := rfl

/-- C8: `calculate_score` is deterministic: with the clock (`now`) and the
exception behavior fixed, two calls on identical stories return identical
results — the same score, signals, explanations and confidence. -/
theorem C8_score_trust_deterministic (oracle : SigName → Bool) (excTop : Bool) (now : ℚ)
    (story1 story2 : Story) (h : story1 = story2) :
    calculate_score oracle excTop now story1 = calculate_score oracle excTop now story2 := by
  rw [h]

/-- Witness for C8 at a concrete story. -/
theorem C8_score_trust_deterministic_witness :
    calculate_score (fun _ => false) false 0 exampleStory =
      calculate_score (fun _ => false) false 0 exampleStory :=
  C8_score_trust_deterministic (fun _ => false) false 0 exampleStory exampleStory rfl

/-- C4: the `velocity_pattern` signal of a story with known velocity `v` is
the exact piecewise function of the claim (`<0.1 → 0.8`, `0.1 ≤ v < 1 →
0.9`, `1 ≤ v < 10 → 0.6`, `≥ 10 → 0.3`), a null velocity yields a null
signal, and the boundary velocities 0.09, 0.99, 9.99, 10.01 map to 0.8,
0.9, 0.6, 0.3 respectively. -/
theorem C4_velocity_pattern_signal (now : ℚ) (story : Story) (v : ℚ) :
    (story.velocity = some v →
      ((v < 1/10 →
          computeSignal (fun _ => false) now story SigName.velocityPattern = some (8/10)) ∧
       (1/10 ≤ v → v < 1 →
          computeSignal (fun _ => false) now story SigName.velocityPattern = some (9/10)) ∧
       (1 ≤ v → v < 10 →
          computeSignal (fun _ => false) now story SigName.velocityPattern = some (6/10)) ∧
       (10 ≤ v →
          computeSignal (fun _ => false) now story SigName.velocityPattern = some (3/10)))) ∧
    (story.velocity = none →
      computeSignal (fun _ => false) now story SigName.velocityPattern = none) ∧
    velocityPatternCore (9/100) = 8/10 ∧
    velocityPatternCore (99/100) = 9/10 ∧
    velocityPatternCore (999/100) = 6/10 ∧
    velocityPatternCore (1001/100) = 3/10 := by
  have hcs : computeSignal (fun _ => false) now story SigName.velocityPattern =
      story.velocity.map velocityPatternCore := by
    simp [computeSignal]
  refine ⟨?_, ?_, by norm_num [velocityPatternCore], by norm_num [velocityPatternCore],
    by norm_num [velocityPatternCore], by norm_num [velocityPatternCore]⟩
  · intro hv
    rw [hcs, hv]
    refine ⟨?_, ?_, ?_, ?_⟩
    · intro h1
      rw [Option.map_some', velocityPatternCore, if_pos h1]
    · intro h1 h2
      rw [Option.map_some', velocityPatternCore, if_neg (not_lt.2 h1), if_pos h2]
    · intro h1 h2
      rw [Option.map_some', velocityPatternCore,
        if_neg (not_lt.2 (le_trans (by norm_num) h1)), if_neg (not_lt.2 h1), if_pos h2]
    · intro h1
      rw [Option.map_some', velocityPatternCore,
        if_neg (not_lt.2 (le_trans (by norm_num) h1)),
        if_neg (not_lt.2 (le_trans (by norm_num) h1)), if_neg (not_lt.2 h1)]
  · intro hv
    rw [hcs, hv]
    rfl

/-- Witness for C4 at velocity 0 (a known, slow velocity). -/
theorem C4_velocity_pattern_signal_witness :
    computeSignal (fun _ => false) 0 exampleStory SigName.velocityPattern = some (8/10) :=
  ((C4_velocity_pattern_signal 0 exampleStory 0).1 rfl).1 (by norm_num)

/-- C7: a batch smaller than `min_mentions` produces an empty trend list,
whatever the posts contain and whatever the four detector passes would
return. -/
theorem C7_small_batch_no_trends (excTop : Bool)
    (clus keyw velo netw : List Post → List TrendCand) (minMentions : ℕ)
    (posts : List Post) (h : posts.length < minMentions) :
    detect_trends excTop clus keyw velo netw minMentions posts = [] := by
  cases excTop <;> simp [detect_trends, h]

/-- Witness for C7 on the empty batch with `min_mentions = 10`. -/
theorem C7_small_batch_no_trends_witness :
    detect_trends false (fun _ => []) (fun _ => []) (fun _ => []) (fun _ => []) 10 [] = [] :=
  C7_small_batch_no_trends false (fun _ => []) (fun _ => []) (fun _ => []) (fun _ => [])
    10 [] (by decide)

/-- Every candidate that `_combine_trend_signals` emits carries a score of
at most 100 (the final `min(base_score, 100.0)` of
`_calculate_trend_score`). -/
theorem combine_score_le_100 (clusters keywords velocities networks : List TrendCand) :
    ∀ t ∈ combineTrendSignals clusters keywords velocities networks, t.score ≤ 100 := by
  intro t ht
  rw [combineTrendSignals, List.mem_map] at ht
  obtain ⟨t0, _, rfl⟩ := ht
  show calculateTrendScore t0 ≤ 100
  exact min_le_right _ _

/-- Structural facts about `_filter_and_rank_trends`: every returned
candidate scored at least 20 and came from the input, the result is sorted
non-increasing by score, and it has at most 50 entries. -/
theorem filterAndRank_invariant (l : List TrendCand) :
    (∀ t ∈ filterAndRankTrends l, 20 ≤ t.score ∧ t ∈ l) ∧
    List.Sorted trendGE (filterAndRankTrends l) ∧
    (filterAndRankTrends l).length ≤ 50 := by
  refine ⟨?_, ?_, ?_⟩
  · intro t ht
    rw [filterAndRankTrends] at ht
    have h1 := List.mem_of_mem_take ht
    rw [List.mem_insertionSort, List.mem_filter] at h1
    exact ⟨by simpa using h1.2, h1.1⟩
  · exact List.Pairwise.sublist (List.take_sublist _ _)
      (List.sorted_insertionSort trendGE _)
  · rw [filterAndRankTrends]
    exact List.length_take_le _ _

/-- C1: every trend list `detect_trends` returns — whatever the four
detector passes produce — contains only scores in `[20, 100]`, is sorted
non-increasing by score, and has at most 50 entries. -/
theorem C1_trend_list_invariant (excTop : Bool)
    (clus keyw velo netw : List Post → List TrendCand) (minMentions : ℕ)
    (posts : List Post) :
    (∀ t ∈ detect_trends excTop clus keyw velo netw minMentions posts,
        20 ≤ t.score ∧ t.score ≤ 100) ∧
    List.Sorted trendGE (detect_trends excTop clus keyw velo netw minMentions posts) ∧
    (detect_trends excTop clus keyw velo netw minMentions posts).length ≤ 50 := by
  rw [detect_trends]
  cases excTop
  case true =>
    exact ⟨by simp, List.sorted_nil, by simp⟩
  case false =>
    by_cases hg : posts.length < minMentions
    · simp only [Bool.false_eq_true, if_false, if_pos hg]
      exact ⟨by simp, List.sorted_nil, by simp⟩
    · simp only [Bool.false_eq_true, if_false, if_neg hg]
      obtain ⟨hmem, hsorted, hlen⟩ := filterAndRank_invariant
        (combineTrendSignals (clus posts) (keyw posts) (velo posts) (netw posts))
      refine ⟨?_, hsorted, hlen⟩
      intro t ht
      obtain ⟨h20, hin⟩ := hmem t ht
      exact ⟨h20, combine_score_le_100 _ _ _ _ t hin⟩

/-- The lists stored by `groupInsert` are never empty. -/
theorem groupInsert_snd_ne_nil (key : ℤ) (p : Post) :
    ∀ l, (∀ kv ∈ l, kv.2 ≠ []) → ∀ kv ∈ groupInsert key p l, kv.2 ≠ [] := by
  intro l
  induction l with
  | nil =>
    intro _ kv hkv
    rw [groupInsert, List.mem_singleton] at hkv
    subst hkv
    simp
  | cons hd tl ih =>
    obtain ⟨k, ps⟩ := hd
    intro hl kv hkv
    rw [groupInsert] at hkv
    by_cases hk : k = key
    · rw [if_pos hk, List.mem_cons] at hkv
      rcases hkv with hkv | hkv
      · subst hkv
        simp
      · exact hl kv (List.mem_cons_of_mem _ hkv)
    · rw [if_neg hk, List.mem_cons] at hkv
      rcases hkv with hkv | hkv
      · subst hkv
        exact hl (k, ps) (List.mem_cons_self _ _)
      · exact ih (fun x hx => hl x (List.mem_cons_of_mem _ hx)) kv hkv

/-- Every time window built by `_group_posts_by_time` contains at least one
post: windows are only created by appending a post to them. -/
theorem groupPostsByTime_snd_ne_nil (w : ℤ) (posts : List Post) :
    ∀ kv ∈ groupPostsByTime w posts, kv.2 ≠ [] := by
  suffices h : ∀ acc : List (ℤ × List Post), (∀ kv ∈ acc, kv.2 ≠ []) →
      ∀ kv ∈ posts.foldl (fun acc p => groupInsert (windowKey w p.postedAt) p acc) acc,
        kv.2 ≠ [] by
    exact h [] (by simp)
  induction posts with
  | nil =>
    intro acc hacc
    simpa using hacc
  | cons p ps ih =>
    intro acc hacc
    rw [List.foldl_cons]
    exact ih _ (groupInsert_snd_ne_nil _ _ acc hacc)

/-- A list of rationals that are all at least 1 sums to at least its
length. -/
theorem length_le_sum (xs : List ℚ) (h : ∀ x ∈ xs, 1 ≤ x) :
    (xs.length : ℚ) ≤ xs.sum := by
  induction xs with
  | nil => simp
  | cons x tl ih =>
    rw [List.length_cons, List.sum_cons]
    push_cast
    have h1 := ih (fun y hy => h y (List.mem_cons_of_mem _ hy))
    have h2 := h x (List.mem_cons_self _ _)
    linarith

/-- C10: every time window in the grouping is non-empty, and whenever the
spike detector proceeds (at least 3 windows, or equivalently whenever it
emits anything) the mean per-window post count is strictly positive, so the
`spike_ratio = count / mean` division of `_analyze_velocity` never divides
by zero. -/
theorem C10_velocity_mean_positive (w : ℤ) (posts : List Post) :
    (∀ kv ∈ groupPostsByTime w posts, kv.2 ≠ []) ∧
    (3 ≤ (velocitiesOf w posts).length → 0 < mean (velocitiesOf w posts)) ∧
    (∀ sqrtFn : ℚ → ℚ, ∀ vt : ℚ,
      analyzeVelocity sqrtFn vt w posts ≠ [] → 0 < mean (velocitiesOf w posts)) := by
  have hne := groupPostsByTime_snd_ne_nil w posts
  have hone : ∀ x ∈ velocitiesOf w posts, (1 : ℚ) ≤ x := by
    intro x hx
    rw [velocitiesOf, List.mem_map] at hx
    obtain ⟨kv, hkv, rfl⟩ := hx
    rw [sortedWindowsOf, List.mem_insertionSort] at hkv
    have hp : 0 < kv.2.length := List.length_pos.2 (hne kv hkv)
    exact_mod_cast hp
  have hmean : 3 ≤ (velocitiesOf w posts).length → 0 < mean (velocitiesOf w posts) := by
    intro h3
    rw [mean]
    have hlen : (0 : ℚ) < (velocitiesOf w posts).length := by
      have : (3 : ℚ) ≤ (velocitiesOf w posts).length := by exact_mod_cast h3
      linarith
    have hsum := length_le_sum _ hone
    exact div_pos (lt_of_lt_of_le hlen hsum) hlen
  refine ⟨hne, hmean, ?_⟩
  intro sqrtFn vt hne2
  simp only [analyzeVelocity] at hne2
  by_cases h3 : (sortedWindowsOf w posts).length < 3
  · rw [if_pos h3] at hne2
    exact absurd rfl hne2
  · apply hmean
    have : (velocitiesOf w posts).length = (sortedWindowsOf w posts).length :=
      List.length_map _ _
    omega

/-- Witness for C10 on three posts in three distinct hour windows. -/
theorem C10_velocity_mean_positive_witness : 0 < mean (velocitiesOf 60 c10posts) :=
  (C10_velocity_mean_positive 60 c10posts).2.1 (by decide)

/-- C3 counterexample: ten cluster members spanning half an hour.  The
claim's formula gives `10 / max(0.5, 0.1) = 20` posts per hour, but the
code divides by `max(time_span, 1)` and yields `10`. -/
theorem C3_cluster_velocity_counterexample :
    clusterVelocity c3posts ≠ clusterVelocitySpec c3posts := by
  have h1 : clusterVelocity c3posts = 10 := by
    norm_num [clusterVelocity, calculateTimeSpan, rawTimeSpanHours, c3posts, mkPost,
      listMax, listMin]
  have h2 : clusterVelocitySpec c3posts = 20 := by
    norm_num [clusterVelocitySpec, rawTimeSpanHours, c3posts, mkPost, listMax, listMin]
  rw [h1, h2]
  norm_num

/-- C3 amended: for every cluster whose members span a nonzero time range,
the emitted velocity is `member_count / max(time_span_hours, 1)` — the
lower clamp that takes effect is 1 hour, not the claimed 0.1 hours (the
`0.1` clamp of `_calculate_time_span` is absorbed by the `max(time_span,
1)` in `_analyze_cluster`). -/
theorem C3_cluster_velocity_amended (posts : List Post)
    (h : 0 < rawTimeSpanHours posts) :
    clusterVelocity posts = (posts.length : ℚ) / max (rawTimeSpanHours posts) 1 := by
  have hlen : ¬ (posts.map Post.postedAt).length < 2 := by
    intro hl
    have hz : rawTimeSpanHours posts = 0 := by
      match posts, hl with
      | [], _ => norm_num [rawTimeSpanHours, listMax, listMin]
      | [p], _ => norm_num [rawTimeSpanHours, listMax, listMin]
    rw [hz] at h
    exact lt_irrefl 0 h
  rw [clusterVelocity, calculateTimeSpan, if_neg hlen]
  have hpos : (0 : ℚ) < max (rawTimeSpanHours posts) (1/10) :=
    lt_of_lt_of_le (by norm_num) (le_max_right _ _)
  rw [if_pos hpos, max_assoc]
  congr 2
  exact max_eq_right (by norm_num)

/-- Witness for the amended C3 at the half-hour cluster. -/
theorem C3_cluster_velocity_amended_witness :
    0 < rawTimeSpanHours c3posts ∧
    clusterVelocity c3posts = (c3posts.length : ℚ) / max (rawTimeSpanHours c3posts) 1 :=
  ⟨by norm_num [rawTimeSpanHours, c3posts, mkPost, listMax, listMin],
   C3_cluster_velocity_amended c3posts
     (by norm_num [rawTimeSpanHours, c3posts, mkPost, listMax, listMin])⟩

/-- A list has one consecutive gap fewer than it has elements. -/
theorem consecutiveGaps_length : ∀ l : List ℚ, (consecutiveGaps l).length = l.length - 1
  | [] => rfl
  | [_] => rfl
  | x :: y :: rest => by
    rw [consecutiveGaps, List.length_cons, consecutiveGaps_length (y :: rest)]
    simp

/-- C5: for every community large enough to be analyzed (the analyzer only
scores communities with at least `min_mentions = 10` posts) whose mean
inter-post gap is positive, the coordination score is exactly
`max(0, 1 - min(std/mean, 1))` over the sorted consecutive gaps; perfectly
even intervals (every gap equal to the mean, zero variance) score exactly
1, and gaps whose standard deviation reaches the mean (`cv ≥ 1`, highly
irregular) score exactly 0. -/
theorem C5_coordination_score (sqrtFn : ℚ → ℚ) (posts : List Post)
    (hsqrt : sqrtFn 0 = 0) (hlen : 10 ≤ posts.length)
    (hmean : 0 < mean (commGaps posts)) :
    calculateCoordinationScore sqrtFn posts =
      max 0 (1 - min (sqrtFn (popVariance (commGaps posts)) / mean (commGaps posts)) 1) ∧
    ((∀ d ∈ commGaps posts, d = mean (commGaps posts)) →
      calculateCoordinationScore sqrtFn posts = 1) ∧
    (mean (commGaps posts) ≤ sqrtFn (popVariance (commGaps posts)) →
      calculateCoordinationScore sqrtFn posts = 0) := by
  have hts : (commTimestamps posts).length = posts.length := List.length_map _ _
  have hnot2 : ¬ (commTimestamps posts).length < 2 := by
    rw [hts]
    omega
  have hg : 1 < (commGaps posts).length := by
    rw [commGaps, consecutiveGaps_length, sortRat, List.length_insertionSort, hts]
    omega
  have hmain : calculateCoordinationScore sqrtFn posts =
      max 0 (1 - min (sqrtFn (popVariance (commGaps posts)) / mean (commGaps posts)) 1) := by
    simp only [calculateCoordinationScore]
    rw [if_neg hnot2, if_pos hg, if_pos hmean]
  refine ⟨hmain, ?_, ?_⟩
  · intro hall
    rw [hmain]
    have hsum : ((commGaps posts).map
        (fun x => (x - mean (commGaps posts)) ^ 2)).sum = 0 := by
      apply List.sum_eq_zero
      intro y hy
      rw [List.mem_map] at hy
      obtain ⟨d, hd, rfl⟩ := hy
      rw [hall d hd]
      ring
    have hvar : popVariance (commGaps posts) = 0 := by
      rw [popVariance, hsum, zero_div]
    rw [hvar, hsqrt, zero_div]
    norm_num
  · intro hsd
    rw [hmain, min_eq_right ((one_le_div hmean).2 hsd)]
    norm_num

/-- Witness for C5: ten posts at perfectly even one-minute intervals score
exactly 1. -/
theorem C5_coordination_score_witness :
    calculateCoordinationScore (fun _ => 0) c5posts = 1 :=
  (C5_coordination_score (fun _ => 0) c5posts rfl (by decide)
      (by
        have hgs : commGaps c5posts = [60, 60, 60, 60, 60, 60, 60, 60, 60] := by
          norm_num [commGaps, sortRat, commTimestamps, c5posts, mkPost, consecutiveGaps,
            List.insertionSort, List.orderedInsert]
        rw [hgs]
        norm_num [mean])).2.1
    (by
      have hgs : commGaps c5posts = [60, 60, 60, 60, 60, 60, 60, 60, 60] := by
        norm_num [commGaps, sortRat, commTimestamps, c5posts, mkPost, consecutiveGaps,
          List.insertionSort, List.orderedInsert]
      rw [hgs]
      intro d hd
      fin_cases hd <;> norm_num [mean])

/-- C6 counterexample: thirteen posts from three accounts, exactly one of
them suspicious and no coordination indicator.  The claim's formula gives
`1/3`, but the code rounds the returned probability to three decimals and
yields `0.333`. -/
theorem C6_bot_probability_counterexample :
    (detect_bots c6posts).botProbability ≠ botProbabilityClaim c6posts := by
  have hstats : collectAccountStats c6posts =
      [("a", { postCount := 11, postTimes := [1,2,3,4,5,6,7,8,9,10,11],
               engagementRatios := [0,0,0,0,0,0,0,0,0,0,0] }),
       ("b", { postCount := 1, postTimes := [1], engagementRatios := [1] }),
       ("c", { postCount := 1, postTimes := [1], engagementRatios := [1] })] := by
    norm_num [collectAccountStats, c6posts, mkBotPost, statsInsert, updateStats, emptyStats]
    decide
  have hsusp : suspiciousAccountsOf (collectAccountStats c6posts) =
      [{ account := "a", suspicionScore := 9/10, postCount := 11 }] := by
    rw [hstats]
    norm_num [suspiciousAccountsOf, List.filter_cons, suspicionScore, mean,
      List.cons_ne_nil]
  have h1 : (suspiciousAccountsOf (collectAccountStats c6posts)).length = 1 := by
    rw [hsusp]
    rfl
  have h2 : ((collectAccountStats c6posts).length : ℚ) = 3 := by
    rw [hstats]
    norm_num
  have huniq : uniqueContentCount c6posts = 13 := by decide
  have h3 : coordinatedIndicatorsOf c6posts 1 = 0 := by
    rw [coordinatedIndicatorsOf, huniq]
    norm_num [c6posts]
  have hne : c6posts.isEmpty = false := by decide
  have hprob : (detect_bots c6posts).botProbability = pyRound 3 (1/3) := by
    simp only [detect_bots, hne, Bool.false_eq_true, if_false, h1, h2, h3]
    norm_num
  have hclaim : botProbabilityClaim c6posts = 1/3 := by
    simp only [botProbabilityClaim, h1, h2, h3]
    norm_num
  rw [hprob, hclaim]
  norm_num [pyRound, roundHalfToEven]

/-- Clamp-and-boost algebra of `detect_bots`: the inner pre-clamp of the
code is redundant, so the returned (pre-rounding) probability equals the
claim's single-clamp formula. -/
theorem clamp_boost_eq (x : ℚ) (k : ℕ) (hx : 0 ≤ x) :
    (if 0 < k then min 1 (min 1 x + 3/10 * (k : ℚ)) else min 1 x) =
    min 1 (max 0 (x + 3/10 * (k : ℚ))) := by
  have hk : (0 : ℚ) ≤ 3/10 * (k : ℚ) := by positivity
  have hmax : max 0 (x + 3/10 * (k : ℚ)) = x + 3/10 * (k : ℚ) :=
    max_eq_right (by linarith)
  rw [hmax]
  by_cases h0 : 0 < k
  · rw [if_pos h0]
    rcases le_total x 1 with hx1 | hx1
    · rw [min_eq_right hx1]
    · rw [min_eq_left hx1, min_eq_left (by linarith), min_eq_left (by linarith)]
  · rw [if_neg h0]
    have hk0 : k = 0 := Nat.eq_zero_of_not_pos h0
    rw [hk0]
    norm_num

/-- C6 amended: for every non-empty batch, `detect_bots` returns
`bot_probability` equal to the claim's formula (suspicious count over
`max(total_accounts, 1)`, plus 0.3 per coordination indicator, clamped to
`[0, 1]`) rounded to three decimal places; `coordinated_campaign` holds iff
more than 5 accounts are suspicious; every returned suspicious account has
an accumulated suspicion score above 0.5 taken from its collected
statistics; and at most 10 suspicious accounts are returned. -/
theorem C6_bot_detection_amended (posts : List BotPost) (h : posts ≠ []) :
    (detect_bots posts).botProbability = pyRound 3 (botProbabilityClaim posts) ∧
    ((detect_bots posts).coordinatedCampaign = true ↔
      5 < (suspiciousAccountsOf (collectAccountStats posts)).length) ∧
    (∀ a ∈ (detect_bots posts).suspiciousAccounts,
      1/2 < a.suspicionScore ∧
      ∃ s, (a.account, s) ∈ collectAccountStats posts ∧
        a.suspicionScore = suspicionScore s ∧ a.postCount = s.postCount) ∧
    (detect_bots posts).suspiciousAccounts.length ≤ 10 := by
  have hne : posts.isEmpty = false := by
    cases posts with
    | nil => exact absurd rfl h
    | cons p ps => rfl
  have hx : (0 : ℚ) ≤ ((suspiciousAccountsOf (collectAccountStats posts)).length : ℚ) /
      max ((collectAccountStats posts).length : ℚ) 1 := by
    apply div_nonneg (by positivity)
    exact le_trans zero_le_one (le_max_right _ _)
  refine ⟨?_, ?_, ?_, ?_⟩
  · simp only [detect_bots, botProbabilityClaim, hne, Bool.false_eq_true, if_false]
    rw [clamp_boost_eq _ _ hx]
  · simp only [detect_bots, hne, Bool.false_eq_true, if_false, decide_eq_true_eq]
  · intro a ha
    simp only [detect_bots, hne, Bool.false_eq_true, if_false] at ha
    have ha2 := List.mem_of_mem_take ha
    rw [suspiciousAccountsOf, List.mem_map] at ha2
    obtain ⟨ks, hks, rfl⟩ := ha2
    rw [List.mem_filter] at hks
    have hcond : 1/2 < suspicionScore ks.2 := by simpa using hks.2
    refine ⟨hcond, ks.2, ?_, rfl, rfl⟩
    rw [Prod.mk.eta]
    exact hks.1
  · simp only [detect_bots, hne, Bool.false_eq_true, if_false]
    exact List.length_take_le _ _

/-- Witness for the amended C6 at the thirteen-post batch. -/
theorem C6_bot_detection_amended_witness :
    (detect_bots c6posts).botProbability = pyRound 3 (botProbabilityClaim c6posts) :=
  (C6_bot_detection_amended c6posts (by decide)).1

end Veracity
